import Mathlib

/-!
Verification of the AI session stream manager of the oramacore Rust client
(`src/stream_manager.rs`, with supporting types from `src/types.rs`,
`src/error.rs`, `src/client.rs`).

The session operations are embedded as pure functions over an explicit
`SessionState`.  Effects the Rust code obtains from the environment are
passed in as parameters:

* `generate_uuid` results become explicit `String` arguments;
* the HTTP transport result of `client.request` becomes an
  `Except OramaError Json` argument;
* JSON parsing (`serde_json` plus the `llm_json` repair pass, both external
  crates) becomes a `String → Option Json` argument, where `none` stands for
  "failed to parse even after JSON fixing";
* the detached `tokio::spawn` state updates are performed synchronously at
  the point where the Rust code spawns them (their effect on the state at
  rest is what the claims are about).
-/

namespace Orama

/-- JSON values, standing in for `serde_json::Value`. -/
inductive Json where
  | null : Json
  | bool (b : Bool) : Json
  | num (n : Int) : Json
  | str (s : String) : Json
  | arr (elems : List Json) : Json
  | obj (fields : List (String × Json)) : Json
deriving Repr

/-- Field access, standing in for `serde_json::Value::get` (an object's keys
are unique, so first-match lookup is faithful); `none` on a non-object or a
missing key. -/
def Json.get (j : Json) (k : String) : Option Json :=
  match j with
  | .obj fields => fields.lookup k
  | _ => none

/-- Standing in for `serde_json::Value::as_str`. -/
def Json.asStr : Json → Option String
  | .str s => some s
  | _ => none

/-- The `Role` enum of `src/types.rs`. -/
inductive Role where
  | system : Role
  | assistant : Role
  | user : Role
deriving Repr, DecidableEq

/-- The `Message` struct of `src/types.rs`. -/
structure Message where
  role : Role
  content : String
deriving Repr, DecidableEq

/-- The `LlmProvider` enum of `src/types.rs`. -/
inductive LlmProvider where
  | openai | fireworks | together | google | claude
deriving Repr, DecidableEq

/-- The `LlmConfig` struct of `src/types.rs`. -/
structure LlmConfig where
  provider : LlmProvider
  model : String
deriving Repr, DecidableEq

/-- The `RelatedQuestionsFormat` enum of `src/types.rs`. -/
inductive RelatedQuestionsFormat where
  | question | query
deriving Repr, DecidableEq

/-- The `RelatedQuestionsConfig` struct of `src/types.rs`. -/
structure RelatedQuestionsConfig where
  enabled : Option Bool
  size : Option Nat
  format : Option RelatedQuestionsFormat
deriving Repr, DecidableEq

/-- The `SearchMode` enum of `src/types.rs`. -/
inductive SearchMode where
  | fulltext | vector | hybrid | auto
deriving Repr, DecidableEq

/-- The `SearchParams` struct of `src/types.rs` (`AnyObject` is
`serde_json::Value`, embedded as `Json`; `f64` as `Float`). -/
structure SearchParams where
  term : String
  mode : Option SearchMode
  limit : Option Nat
  offset : Option Nat
  properties : Option (List String)
  where_clause : Option Json
  facets : Option Json
  indexes : Option (List String)
  datasource_ids : Option (List String)
  exact : Option Bool
  threshold : Option Float
  tolerance : Option Nat
  user_id : Option String
deriving Repr

/-- The `AnswerConfig` struct of `src/stream_manager.rs`. -/
structure AnswerConfig where
  query : String
  interaction_id : Option String
  visitor_id : Option String
  session_id : Option String
  messages : Option (List Message)
  related : Option RelatedQuestionsConfig
  datasource_ids : Option (List String)
  min_similarity : Option Float
  max_documents : Option Nat
  ragat_notation : Option String
  llm_config : Option LlmConfig
deriving Repr

/-- The `AnswerConfig::new` constructor of `src/stream_manager.rs`. -/
def AnswerConfig.new (query : String) : AnswerConfig where
  query := query
  interaction_id := none
  visitor_id := none
  session_id := none
  messages := none
  related := none
  datasource_ids := none
  min_similarity := none
  max_documents := none
  ragat_notation := none
  llm_config := none

/-- The `Interaction` struct of `src/stream_manager.rs`. -/
structure Interaction where
  id : String
  query : String
  response : String
  sources : Option Json
  loading : Bool
  error : Bool
  error_message : Option String
  aborted : Bool
  related : Option String
  current_step : Option String
  current_step_verbose : Option String
  selected_llm : Option LlmConfig
  optimized_query : Option SearchParams
  advanced_autoquery : Option Json
deriving Repr

/-- The `Interaction::new` constructor of `src/stream_manager.rs`. -/
def Interaction.new (id : String) (query : String) : Interaction where
  id := id
  query := query
  response := ""
  sources := none
  loading := true
  error := false
  error_message := none
  aborted := false
  related := none
  current_step := some "starting"
  current_step_verbose := none
  selected_llm := none
  optimized_query := none
  advanced_autoquery := none

/-- The `StreamChunk` enum of `src/stream_manager.rs`. -/
inductive StreamChunk where
  | connectionOpened : StreamChunk
  | content (s : String) : StreamChunk
  | statusUpdate (s : String) : StreamChunk
  | rawData (s : String) : StreamChunk
  | done : StreamChunk
  | retry (attempt : Nat) (delay_ms : Nat) : StreamChunk
deriving Repr, DecidableEq

/-- The `OramaError` variants of `src/error.rs` that the stream manager can
produce (`Http`, `Json`, `Io`, `Url` wrap foreign error types and are kept
as plain messages here). -/
inductive OramaError where
  | auth (message : String) : OramaError
  | api (status : Nat) (message : String) : OramaError
  | config (message : String) : OramaError
  | stream (message : String) : OramaError
  | generic (message : String) : OramaError
deriving Repr, DecidableEq

/-- The `DEFAULT_SERVER_USER_ID` constant of `src/types.rs`. -/
def DEFAULT_SERVER_USER_ID : String := "server-user-default"

/-- The per-session immutable data of `OramaCoreStream`: the session
identifier generated at creation time and the optional default LLM
configuration. -/
structure SessionCtx where
  session_id : String
  llm_config : Option LlmConfig
deriving Repr

/-- The mutable state of an `OramaCoreStream`: the message history, the
interaction ledger and the stored last request parameters
(the three `Arc<RwLock<_>>` fields). -/
structure SessionState where
  messages : List Message
  state : List Interaction
  last_interaction_params : Option AnswerConfig
deriving Repr

/-- The state of a freshly created session (`OramaCoreStream::new`). -/
def SessionState.new : SessionState where
  messages := []
  state := []
  last_interaction_params := none

/-- The state of a session created through `OramaCoreStream::with_config`:
the seed messages, no interactions, no stored parameters. -/
def SessionState.with_config (initial_messages : Option (List Message)) :
    SessionState where
  messages := initial_messages.getD []
  state := []
  last_interaction_params := none

/-- In-place update of the last element of a list, the pure counterpart of
the `if let Some(x) = v.last_mut() { mutate x }` idiom used throughout
`stream_manager.rs` (no element is added or removed; the empty list is left
alone). -/
def updateLast {α : Type} (f : α → α) : List α → List α
  | [] => []
  | [a] => [f a]
  | a :: b :: t => a :: updateLast f (b :: t)

/-- The `enrich_config` method of `OramaCoreStream`; `fresh_id` is the value
`generate_uuid()` would return when called for a missing interaction id. -/
def enrich_config (ctx : SessionCtx) (fresh_id : String)
    (config : AnswerConfig) : AnswerConfig :=
  let config :=
    if config.visitor_id = none then
      { config with visitor_id := some DEFAULT_SERVER_USER_ID }
    else config
  let config :=
    if config.interaction_id = none then
      { config with interaction_id := some fresh_id }
    else config
  let config :=
    if config.session_id = none then
      { config with session_id := some ctx.session_id }
    else config
  let config :=
    if config.llm_config = none then
      { config with llm_config := ctx.llm_config }
    else config
  config

/-- The shared opening phase of `answer` and `answer_stream`: enrich the
config, store it as the last request parameters, append the user message and
the empty assistant placeholder, and append the fresh `Interaction`.
`uuid1` is the `generate_uuid()` result `enrich_config` may use, `uuid2` the
one of the `unwrap_or_else(generate_uuid)` fallback for the interaction id
(unreachable after enrichment, but embedded faithfully). -/
def answer_setup (ctx : SessionCtx) (uuid1 uuid2 : String)
    (data : AnswerConfig) (s : SessionState) : SessionState × AnswerConfig :=
  let enriched_config := enrich_config ctx uuid1 data
  let s := { s with last_interaction_params := some enriched_config }
  let new_messages :=
    s.messages ++ [Message.mk Role.user enriched_config.query,
                   Message.mk Role.assistant ""]
  let s := { s with messages := new_messages }
  let interaction_id := enriched_config.interaction_id.getD uuid2
  let new_state :=
    s.state ++ [Interaction.new interaction_id enriched_config.query]
  let s := { s with state := new_state }
  (s, enriched_config)

/-- The in-place interaction update `answer` performs on success: write the
answer text, finalize `loading` and `current_step`, and copy `sources` and
`related` from the response when present. -/
def answer_update_interaction (response : Json) (answer : String)
    (li : Interaction) : Interaction :=
  let li := { li with
    response := answer,
    loading := false,
    current_step := some "completed" }
  let li :=
    match response.get "sources" with
    | some sources => { li with sources := some sources }
    | none => li
  match response.get "related" with
  | some _ => { li with related := (response.get "related").bind Json.asStr }
  | none => li

/-- The success continuation of `answer`: extract
`response["answer"].as_str().unwrap_or_default()`, write it into the last
interaction and into the last message. -/
def answer_finish (response : Json) (s : SessionState) : SessionState × String :=
  let answer := ((response.get "answer").bind Json.asStr).getD ""
  let new_state := updateLast (answer_update_interaction response answer) s.state
  let s := { s with state := new_state }
  let new_messages := updateLast (fun m => { m with content := answer }) s.messages
  let s := { s with messages := new_messages }
  (s, answer)

/-- The `answer` method of `OramaCoreStream`; `net` is the transport outcome
of `client.request` (on HTTP 401 the client produces
`OramaError::Auth "Unauthorized: are you using the correct API Key?"`). -/
def answer (ctx : SessionCtx) (uuid1 uuid2 : String)
    (net : Except OramaError Json) (data : AnswerConfig) (s : SessionState) :
    SessionState × Except OramaError String :=
  let s := (answer_setup ctx uuid1 uuid2 data s).1
  match net with
  | .error e => (s, .error e)
  | .ok response =>
    let r := answer_finish response s
    (r.1, .ok r.2)

/-- The `mark_interaction_error` helper of `OramaCoreStream`. -/
def mark_interaction_error (state : List Interaction)
    (error_message : String) : List Interaction :=
  updateLast (fun i =>
    { i with error := true, error_message := some error_message, loading := false }) state

/-- The in-place interaction update of the content branch of
`process_stream_data`: append the content delta to `response` and refresh
`current_step` / `current_step_verbose` when the payload carries them. -/
def content_update_interaction (p : Json) (content : String)
    (li : Interaction) : Interaction :=
  let li := { li with response := li.response ++ content }
  let li :=
    match (p.get "step").bind Json.asStr with
    | some step => { li with current_step := some step }
    | none => li
  match (p.get "verbose_step").bind Json.asStr with
  | some verbose => { li with current_step_verbose := some verbose }
  | none => li

/-- The in-place message update of the content branch of
`process_stream_data`: append the content delta, but only when the last
message is an assistant message. -/
def content_update_message (content : String) (m : Message) : Message :=
  if m.role = Role.assistant then
    { m with content := m.content ++ content }
  else m

/-- The `process_stream_data` helper of `OramaCoreStream`. `parsed` is the
outcome of `parse_ai_response` on `data` (`none` when parsing failed even
after the llm_json repair pass); the spawned state updates are applied
synchronously. -/
def process_stream_data (parsed : Option Json) (data : String)
    (messages : List Message) (state : List Interaction) :
    List Message × List Interaction × Except OramaError StreamChunk :=
  match parsed with
  | some p =>
    match (p.get "content").bind Json.asStr with
    | some content =>
      let messages := updateLast (content_update_message content) messages
      let state := updateLast (content_update_interaction p content) state
      (messages, state, .ok (.content content))
    | none =>
      match (p.get "step").bind Json.asStr with
      | some step =>
        (messages,
          updateLast (fun li => { li with current_step := some step }) state,
          .ok (.statusUpdate step))
      | none =>
        match (p.get "error").bind Json.asStr with
        | some error_msg =>
          (messages, mark_interaction_error state error_msg,
            .error (.generic error_msg))
        | none => (messages, state, .ok (.rawData data))
  | none => (messages, state, .ok (.rawData data))

/-- The finalization `create_resilient_stream` performs on the `"[DONE]"`
sentinel. -/
def finish_done (state : List Interaction) : List Interaction :=
  updateLast (fun i =>
    { i with loading := false, current_step := some "completed" }) state

/-- Handling of one SSE `Event::Message` payload inside
`create_resilient_stream`: the `"[DONE]"` sentinel short-circuits, any other
payload goes through `process_stream_data`; `parse` stands for
`parse_ai_response`. -/
def handle_message_event (parse : String → Option Json) (data : String)
    (messages : List Message) (state : List Interaction) :
    List Message × List Interaction × Except OramaError StreamChunk :=
  if data = "[DONE]" then
    (messages, finish_done state, .ok StreamChunk.done)
  else
    process_stream_data (parse data) data messages state

/-- The state effect of `answer_stream` up to returning the stream to the
caller: the same enrich/store/append phase as `answer`. -/
def answer_stream_start (ctx : SessionCtx) (uuid1 uuid2 : String)
    (data : AnswerConfig) (s : SessionState) : SessionState :=
  (answer_setup ctx uuid1 uuid2 data s).1

/-- The collection loop of `regenerate_last` with streaming: pull chunks in
order, append `Content` payloads to the accumulator, stop at `Done`,
propagate a stream error, ignore the other chunk kinds. -/
def collect_stream (parse : String → Option Json) :
    List String → SessionState → String → SessionState × Except OramaError String
  | [], s, acc => (s, .ok acc)
  | data :: rest, s, acc =>
    let r := handle_message_event parse data s.messages s.state
    let s := { s with messages := r.1, state := r.2.1 }
    match r.2.2 with
    | .error e => (s, .error e)
    | .ok (StreamChunk.content c) => collect_stream parse rest s (acc ++ c)
    | .ok StreamChunk.done => (s, .ok acc)
    | .ok _ => collect_stream parse rest s acc

/-- The `regenerate_last` method. `stream` selects the replay path; `net` is
the transport outcome the non-streaming replay would observe, `parse` and
`events` the SSE feed the streaming replay would observe. -/
def regenerate_last (ctx : SessionCtx) (uuid1 uuid2 : String) (stream : Bool)
    (net : Except OramaError Json) (parse : String → Option Json)
    (events : List String) (s : SessionState) :
    SessionState × Except OramaError String :=
  if s.state.length = 0 ∨ s.messages.length = 0 then
    (s, .error (.generic "No messages to regenerate"))
  else if (match s.messages.getLast? with
           | some last_message => decide (last_message.role ≠ Role.assistant)
           | none => false) then
    (s, .error (.generic "Last message is not an assistant message"))
  else
    match s.last_interaction_params with
    | none => (s, .error (.generic "No last interaction parameters available"))
    | some last_params =>
      let s := { s with messages := s.messages.dropLast }
      let s := { s with state := s.state.dropLast }
      if stream then
        let s := answer_stream_start ctx uuid1 uuid2 last_params s
        collect_stream parse events s ""
      else
        answer ctx uuid1 uuid2 net last_params s

/-- The `clear_session` method: empties both sequences (it leaves the stored
last request parameters and the session id in place). -/
def clear_session (s : SessionState) : SessionState :=
  { s with messages := [], state := [] }

/-- The `get_messages` method (point-in-time snapshot). -/
def get_messages (s : SessionState) : List Message := s.messages

/-- The `get_state` method (point-in-time snapshot). -/
def get_state (s : SessionState) : List Interaction := s.state

/-- Processing a list of already-parsed payloads in order through
`process_stream_data`, keeping the state (chunk outputs dropped). -/
def process_parsed_list :
    List Json → List Message → List Interaction → List Message × List Interaction
  | [], messages, state => (messages, state)
  | p :: rest, messages, state =>
    let r := process_stream_data (some p) "" messages state
    process_parsed_list rest r.1 r.2.1

/-- Feeding a list of raw SSE payloads in order through
`handle_message_event`, keeping the state. -/
def run_events (parse : String → Option Json) :
    List String → List Message → List Interaction → List Message × List Interaction
  | [], messages, state => (messages, state)
  | data :: rest, messages, state =>
    let r := handle_message_event parse data messages state
    run_events parse rest r.1 r.2.1

/-! Helper lemmas about `updateLast` and the decoder. -/

theorem updateLast_append_singleton {α : Type} (f : α → α) (xs : List α) (x : α) :
    updateLast f (xs ++ [x]) = xs ++ [f x] := by
  induction xs with
  | nil => rfl
  | cons a t ih =>
    cases h : t ++ [x] with
    | nil => simp at h
    | cons b u =>
      calc updateLast f (a :: t ++ [x]) = updateLast f (a :: b :: u) := by
              rw [List.cons_append, h]
        _ = a :: updateLast f (b :: u) := rfl
        _ = a :: updateLast f (t ++ [x]) := by rw [← h]
        _ = a :: (t ++ [f x]) := by rw [ih]
        _ = a :: t ++ [f x] := by simp

theorem updateLast_length {α : Type} (f : α → α) (l : List α) :
    (updateLast f l).length = l.length := by
  rcases List.eq_nil_or_concat l with rfl | ⟨xs, x, rfl⟩
  · rfl
  · simp [List.concat_eq_append, updateLast_append_singleton]

theorem updateLast_dropLast {α : Type} (f : α → α) (l : List α) :
    (updateLast f l).dropLast = l.dropLast := by
  rcases List.eq_nil_or_concat l with rfl | ⟨xs, x, rfl⟩
  · rfl
  · simp [List.concat_eq_append, updateLast_append_singleton]

theorem updateLast_getLast? {α : Type} (f : α → α) (l : List α) :
    (updateLast f l).getLast? = l.getLast?.map f := by
  rcases List.eq_nil_or_concat l with rfl | ⟨xs, x, rfl⟩
  · rfl
  · simp [List.concat_eq_append, updateLast_append_singleton]

theorem content_update_interaction_response (p : Json) (c : String)
    (li : Interaction) :
    (content_update_interaction p c li).response = li.response ++ c := by
  cases h1 : (p.get "step").bind Json.asStr <;>
    cases h2 : (p.get "verbose_step").bind Json.asStr <;>
      simp [content_update_interaction, h1, h2]

theorem content_update_message_assistant (c : String) (m : Message)
    (h : m.role = Role.assistant) :
    content_update_message c m = { m with content := m.content ++ c } := by
  simp [content_update_message, h]

theorem process_content_eq (p : Json) (c : String) (data : String)
    (msgs : List Message) (st : List Interaction)
    (h : (p.get "content").bind Json.asStr = some c) :
    process_stream_data (some p) data msgs st =
      (updateLast (content_update_message c) msgs,
       updateLast (content_update_interaction p c) st,
       .ok (.content c)) := by
  simp [process_stream_data, h]

theorem process_frame (parsed : Option Json) (data : String)
    (msgs : List Message) (st : List Interaction) :
    (process_stream_data parsed data msgs st).1.length = msgs.length ∧
    (process_stream_data parsed data msgs st).2.1.length = st.length ∧
    (process_stream_data parsed data msgs st).1.dropLast = msgs.dropLast ∧
    (process_stream_data parsed data msgs st).2.1.dropLast = st.dropLast := by
  rcases parsed with _ | p
  · simp [process_stream_data]
  · rcases h1 : (p.get "content").bind Json.asStr with _ | c
    · rcases h2 : (p.get "step").bind Json.asStr with _ | stp
      · rcases h3 : (p.get "error").bind Json.asStr with _ | err
        · simp [process_stream_data, h1, h2, h3]
        · simp [process_stream_data, h1, h2, h3, mark_interaction_error,
            updateLast_length, updateLast_dropLast]
      · simp [process_stream_data, h1, h2, updateLast_length, updateLast_dropLast]
    · simp [process_stream_data, h1, updateLast_length, updateLast_dropLast]

theorem handle_frame (parse : String → Option Json) (data : String)
    (msgs : List Message) (st : List Interaction) :
    (handle_message_event parse data msgs st).1.length = msgs.length ∧
    (handle_message_event parse data msgs st).2.1.length = st.length ∧
    (handle_message_event parse data msgs st).1.dropLast = msgs.dropLast ∧
    (handle_message_event parse data msgs st).2.1.dropLast = st.dropLast := by
  by_cases h : data = "[DONE]"
  · simp [handle_message_event, h, finish_done, updateLast_length, updateLast_dropLast]
  · simpa [handle_message_event, h] using process_frame (parse data) data msgs st

theorem collect_stream_lengths (parse : String → Option Json)
    (events : List String) :
    ∀ (s : SessionState) (acc : String),
      (collect_stream parse events s acc).1.messages.length = s.messages.length ∧
      (collect_stream parse events s acc).1.state.length = s.state.length := by
  induction events with
  | nil => intro s acc; exact ⟨rfl, rfl⟩
  | cons data rest ih =>
    intro s acc
    have hf := handle_frame parse data s.messages s.state
    rcases hr : (handle_message_event parse data s.messages s.state).2.2 with e | ck
    · simp only [collect_stream, hr]
      exact ⟨hf.1, hf.2.1⟩
    · rcases ck with _ | c | stp | raw | _ | ⟨a, d⟩ <;>
        simp only [collect_stream, hr] <;>
        first
          | exact ⟨hf.1, hf.2.1⟩
          | exact ⟨(ih _ _).1.trans hf.1, (ih _ _).2.trans hf.2.1⟩

theorem updateLast_fix {α : Type} (f : α → α) (l : List α) (m : α)
    (hl : l.getLast? = some m) (hf : f m = m) : updateLast f l = l := by
  rcases List.eq_nil_or_concat l with rfl | ⟨xs, x, rfl⟩
  · rfl
  · rw [List.concat_eq_append] at hl ⊢
    simp only [List.getLast?_concat, Option.some.injEq] at hl
    rw [updateLast_append_singleton, hl, hf]

/-! Claim theorems. -/

/-- Claim C7: `enrich_config` fills exactly the omitted fields — missing visitor id
becomes the default constant, missing interaction id becomes the freshly
generated identifier, missing session id becomes the session's own
identifier, missing LLM config becomes the session default — caller-supplied
fields and all other fields are left unchanged, and the enriched
configuration (not the caller's original) is stored as the last request
parameters by both the non-streaming and the streaming path. -/
theorem claim_C7_enrichment (ctx : SessionCtx) (uuid1 uuid2 : String)
    (net : Except OramaError Json) (cfg : AnswerConfig) (s : SessionState) :
    (enrich_config ctx uuid1 cfg).visitor_id
        = some (cfg.visitor_id.getD DEFAULT_SERVER_USER_ID) ∧
    (enrich_config ctx uuid1 cfg).interaction_id
        = some (cfg.interaction_id.getD uuid1) ∧
    (enrich_config ctx uuid1 cfg).session_id
        = some (cfg.session_id.getD ctx.session_id) ∧
    (enrich_config ctx uuid1 cfg).llm_config
        = (match cfg.llm_config with
           | some c => some c
           | none => ctx.llm_config) ∧
    (enrich_config ctx uuid1 cfg).query = cfg.query ∧
    (enrich_config ctx uuid1 cfg).messages = cfg.messages ∧
    (enrich_config ctx uuid1 cfg).related = cfg.related ∧
    (enrich_config ctx uuid1 cfg).datasource_ids = cfg.datasource_ids ∧
    (enrich_config ctx uuid1 cfg).min_similarity = cfg.min_similarity ∧
    (enrich_config ctx uuid1 cfg).max_documents = cfg.max_documents ∧
    AnswerConfig.ragat_notation (enrich_config ctx uuid1 cfg)
      = AnswerConfig.ragat_notation cfg ∧
    (answer ctx uuid1 uuid2 net cfg s).1.last_interaction_params
        = some (enrich_config ctx uuid1 cfg) ∧
    (answer_stream_start ctx uuid1 uuid2 cfg s).last_interaction_params
        = some (enrich_config ctx uuid1 cfg) := by
  rcases net with e | j <;>
    rcases h1 : cfg.visitor_id with _ | v <;>
      rcases h2 : cfg.interaction_id with _ | i <;>
        rcases h3 : cfg.session_id with _ | sid <;>
          rcases h4 : cfg.llm_config with _ | lc <;>
            simp [enrich_config, answer, answer_setup, answer_finish,
              answer_stream_start, h1, h2, h3, h4]

/-- Claim C9: processing one stream event mutates at most the last message and the
last interaction — both sequence lengths are preserved and all earlier
elements (`dropLast`) are unchanged — and when the last message is not an
assistant message the message sequence is left entirely untouched (only the
interaction is updated). -/
theorem claim_C9_frame (parse : String → Option Json) (data : String)
    (msgs : List Message) (st : List Interaction) :
    (handle_message_event parse data msgs st).1.length = msgs.length ∧
    (handle_message_event parse data msgs st).2.1.length = st.length ∧
    (handle_message_event parse data msgs st).1.dropLast = msgs.dropLast ∧
    (handle_message_event parse data msgs st).2.1.dropLast = st.dropLast ∧
    (∀ m, msgs.getLast? = some m → m.role ≠ Role.assistant →
      (handle_message_event parse data msgs st).1 = msgs) := by
  have hf := handle_frame parse data msgs st
  refine ⟨hf.1, hf.2.1, hf.2.2.1, hf.2.2.2, ?_⟩
  intro m hm hrole
  by_cases hd : data = "[DONE]"
  · simp [handle_message_event, hd]
  · rcases hp : parse data with _ | p
    · simp [handle_message_event, hd, process_stream_data, hp]
    · rcases h1 : (p.get "content").bind Json.asStr with _ | c
      · rcases h2 : (p.get "step").bind Json.asStr with _ | stp
        · rcases h3 : (p.get "error").bind Json.asStr with _ | err <;>
            simp [handle_message_event, hd, process_stream_data, hp, h1, h2, h3]
        · simp [handle_message_event, hd, process_stream_data, hp, h1, h2]
      · have hfix : content_update_message c m = m := by
          simp [content_update_message, hrole]
        simp [handle_message_event, hd, process_stream_data, hp, h1,
          updateLast_fix (content_update_message c) msgs m hm hfix]

/-- Witness for C9 at a concrete event and state. -/
theorem claim_C9_frame_witness :
    (handle_message_event (fun _ => none) "x" [Message.mk Role.user "q"] []).1
      = [Message.mk Role.user "q"] ∧
    (handle_message_event (fun _ => none) "x" [Message.mk Role.user "q"] []).2.1.length = 0 := by
  constructor
  · exact (claim_C9_frame (fun _ => none) "x" [Message.mk Role.user "q"] []).2.2.2.2
      (Message.mk Role.user "q") rfl (by decide)
  · exact (claim_C9_frame (fun _ => none) "x" [Message.mk Role.user "q"] []).2.1

theorem updateLast_append_pair {α : Type} (f : α → α) (l : List α) (u a : α) :
    updateLast f (l ++ [u, a]) = l ++ [u, f a] := by
  have h : l ++ [u, a] = (l ++ [u]) ++ [a] := by simp
  rw [h, updateLast_append_singleton]
  simp

theorem getLast?_append_pair {α : Type} (l : List α) (u a : α) :
    (l ++ [u, a]).getLast? = some a := by
  have h : l ++ [u, a] = (l ++ [u]) ++ [a] := by simp
  rw [h, List.getLast?_concat]

theorem answer_update_interaction_response (r : Json) (a : String)
    (li : Interaction) : (answer_update_interaction r a li).response = a := by
  cases h1 : r.get "sources" <;> cases h2 : r.get "related" <;>
    simp [answer_update_interaction, h1, h2]

theorem answer_update_interaction_loading (r : Json) (a : String)
    (li : Interaction) : (answer_update_interaction r a li).loading = false := by
  cases h1 : r.get "sources" <;> cases h2 : r.get "related" <;>
    simp [answer_update_interaction, h1, h2]

theorem answer_update_interaction_current_step (r : Json) (a : String)
    (li : Interaction) :
    (answer_update_interaction r a li).current_step = some "completed" := by
  cases h1 : r.get "sources" <;> cases h2 : r.get "related" <;>
    simp [answer_update_interaction, h1, h2]

/-- Claim C10: when the non-streaming `answer` receives a successful response whose
JSON body has no top-level string field named `answer`, it returns the empty
string — writing the empty string into the last assistant message and the
last Interaction's response and finalizing `loading=false`,
`current_step="completed"` — rather than returning an error. -/
theorem claim_C10_missing_answer_field (ctx : SessionCtx) (uuid1 uuid2 : String)
    (j : Json) (cfg : AnswerConfig) (s : SessionState)
    (h : (j.get "answer").bind Json.asStr = none) :
    (answer ctx uuid1 uuid2 (.ok j) cfg s).2 = .ok "" ∧
    (answer ctx uuid1 uuid2 (.ok j) cfg s).1.messages.getLast?.map
        Message.content = some "" ∧
    (answer ctx uuid1 uuid2 (.ok j) cfg s).1.state.getLast?.map
        Interaction.response = some "" ∧
    (answer ctx uuid1 uuid2 (.ok j) cfg s).1.state.getLast?.map
        Interaction.loading = some false ∧
    (answer ctx uuid1 uuid2 (.ok j) cfg s).1.state.getLast?.map
        Interaction.current_step = some (some "completed") := by
  simp [answer, answer_setup, answer_finish, h, updateLast_append_pair,
    updateLast_append_singleton, getLast?_append_pair, List.getLast?_concat,
    answer_update_interaction_response, answer_update_interaction_loading,
    answer_update_interaction_current_step]

/-- Witness for C10: a response body that is the empty JSON object. -/
theorem claim_C10_missing_answer_field_witness :
    (answer ⟨"sess", none⟩ "u1" "u2" (.ok (Json.obj [])) (AnswerConfig.new "q")
        SessionState.new).2 = .ok "" ∧
    (answer ⟨"sess", none⟩ "u1" "u2" (.ok (Json.obj [])) (AnswerConfig.new "q")
        SessionState.new).1.messages.getLast?.map Message.content = some "" ∧
    (answer ⟨"sess", none⟩ "u1" "u2" (.ok (Json.obj [])) (AnswerConfig.new "q")
        SessionState.new).1.state.getLast?.map Interaction.response = some "" ∧
    (answer ⟨"sess", none⟩ "u1" "u2" (.ok (Json.obj [])) (AnswerConfig.new "q")
        SessionState.new).1.state.getLast?.map Interaction.loading = some false ∧
    (answer ⟨"sess", none⟩ "u1" "u2" (.ok (Json.obj [])) (AnswerConfig.new "q")
        SessionState.new).1.state.getLast?.map Interaction.current_step
      = some (some "completed") :=
  claim_C10_missing_answer_field ⟨"sess", none⟩ "u1" "u2" (Json.obj [])
    (AnswerConfig.new "q") SessionState.new rfl

/-- Claim C4 counterexample: with the transport failing (HTTP 401 produces
`OramaError::Auth`), `answer` on a fresh session does return the typed
error, but the pending Interaction is neither removed nor marked errored —
it stays in the ledger with `loading=true` and `error=false`, contradicting
the claim that no Interaction is left loading (removed or errored). -/
theorem claim_C4_counterexample :
    (answer ⟨"sess", none⟩ "u1" "u2"
        (.error (OramaError.auth "Unauthorized: are you using the correct API Key?"))
        (AnswerConfig.new "q") SessionState.new).2
      = .error (OramaError.auth "Unauthorized: are you using the correct API Key?") ∧
    (answer ⟨"sess", none⟩ "u1" "u2"
        (.error (OramaError.auth "Unauthorized: are you using the correct API Key?"))
        (AnswerConfig.new "q") SessionState.new).1.state.length = 1 ∧
    (answer ⟨"sess", none⟩ "u1" "u2"
        (.error (OramaError.auth "Unauthorized: are you using the correct API Key?"))
        (AnswerConfig.new "q") SessionState.new).1.state.getLast?.map
        Interaction.loading = some true ∧
    (answer ⟨"sess", none⟩ "u1" "u2"
        (.error (OramaError.auth "Unauthorized: are you using the correct API Key?"))
        (AnswerConfig.new "q") SessionState.new).1.state.getLast?.map
        Interaction.error = some false ∧
    ¬((answer ⟨"sess", none⟩ "u1" "u2"
        (.error (OramaError.auth "Unauthorized: are you using the correct API Key?"))
        (AnswerConfig.new "q") SessionState.new).1.state.length = 0 ∨
      (answer ⟨"sess", none⟩ "u1" "u2"
        (.error (OramaError.auth "Unauthorized: are you using the correct API Key?"))
        (AnswerConfig.new "q") SessionState.new).1.state.getLast?.map
        Interaction.error = some true ∨
      (answer ⟨"sess", none⟩ "u1" "u2"
        (.error (OramaError.auth "Unauthorized: are you using the correct API Key?"))
        (AnswerConfig.new "q") SessionState.new).1.state.getLast?.map
        Interaction.loading = some false) := by
  refine ⟨rfl, rfl, rfl, rfl, ?_⟩
  intro h
  rcases h with h | h | h <;> exact absurd h (by decide)

/-- Claim C4 (amended): when the transport call inside `answer` fails, the call
returns the typed error to the caller, but the pending pair is neither
removed nor marked errored: the user message, the empty assistant
placeholder and the new Interaction remain appended, and the Interaction is
left with `loading=true` and `error=false`. -/
theorem claim_C4_amended (ctx : SessionCtx) (uuid1 uuid2 : String)
    (e : OramaError) (cfg : AnswerConfig) (s : SessionState) :
    (answer ctx uuid1 uuid2 (.error e) cfg s).2 = .error e ∧
    (answer ctx uuid1 uuid2 (.error e) cfg s).1.messages.length
      = s.messages.length + 2 ∧
    (answer ctx uuid1 uuid2 (.error e) cfg s).1.state.length
      = s.state.length + 1 ∧
    (answer ctx uuid1 uuid2 (.error e) cfg s).1.state.getLast?.map
        Interaction.loading = some true ∧
    (answer ctx uuid1 uuid2 (.error e) cfg s).1.state.getLast?.map
        Interaction.error = some false := by
  simp [answer, answer_setup, Interaction.new, List.getLast?_concat]

/-- Claim C8: the three local precondition failures of `regenerate_last` — empty
history, last message not from the assistant, and no stored last request
parameters — each return the corresponding error without consulting the
transport (the result is the same for every `stream`/`net`/`parse`/`events`
environment) and without modifying the session state. -/
theorem claim_C8_regenerate_preconditions (ctx : SessionCtx)
    (uuid1 uuid2 : String) (s : SessionState) :
    (s.state.length = 0 ∨ s.messages.length = 0 →
      ∀ (stream : Bool) (net : Except OramaError Json)
        (parse : String → Option Json) (events : List String),
        regenerate_last ctx uuid1 uuid2 stream net parse events s
          = (s, .error (.generic "No messages to regenerate"))) ∧
    (∀ m, s.messages.getLast? = some m → m.role ≠ Role.assistant →
      s.state.length ≠ 0 → s.messages.length ≠ 0 →
      ∀ (stream : Bool) (net : Except OramaError Json)
        (parse : String → Option Json) (events : List String),
        regenerate_last ctx uuid1 uuid2 stream net parse events s
          = (s, .error (.generic "Last message is not an assistant message"))) ∧
    (s.state.length ≠ 0 → s.messages.length ≠ 0 →
      (∀ m, s.messages.getLast? = some m → m.role = Role.assistant) →
      s.last_interaction_params = none →
      ∀ (stream : Bool) (net : Except OramaError Json)
        (parse : String → Option Json) (events : List String),
        regenerate_last ctx uuid1 uuid2 stream net parse events s
          = (s, .error (.generic "No last interaction parameters available"))) := by
  refine ⟨?_, ?_, ?_⟩
  · intro h stream net parse events
    unfold regenerate_last
    rw [if_pos h]
  · intro m hm hrole hs hm0 stream net parse events
    simp [regenerate_last, hs, hm0, hm, hrole]
  · intro hs hm0 hall hp stream net parse events
    have hne : s.messages ≠ [] := fun hnil => hm0 (by rw [hnil]; rfl)
    obtain ⟨m, hm⟩ := Option.isSome_iff_exists.mp (List.getLast?_isSome.mpr hne)
    have hrole := hall m hm
    simp [regenerate_last, hs, hm0, hm, hrole, hp]

/-- Witness for C8: the three failure cases at concrete sessions — a fresh
session, a session whose last message is a user message, and a session with
history but no stored parameters. -/
theorem claim_C8_regenerate_preconditions_witness :
    regenerate_last ⟨"s", none⟩ "u1" "u2" false (.ok Json.null)
        (fun _ => none) [] SessionState.new
      = (SessionState.new, .error (.generic "No messages to regenerate")) ∧
    regenerate_last ⟨"s", none⟩ "u1" "u2" false (.ok Json.null) (fun _ => none) []
        ⟨[Message.mk Role.user "q"], [Interaction.new "i" "q"], none⟩
      = (⟨[Message.mk Role.user "q"], [Interaction.new "i" "q"], none⟩,
         .error (.generic "Last message is not an assistant message")) ∧
    regenerate_last ⟨"s", none⟩ "u1" "u2" false (.ok Json.null) (fun _ => none) []
        ⟨[Message.mk Role.assistant "a"], [Interaction.new "i" "q"], none⟩
      = (⟨[Message.mk Role.assistant "a"], [Interaction.new "i" "q"], none⟩,
         .error (.generic "No last interaction parameters available")) := by
  refine ⟨?_, ?_, ?_⟩
  · exact (claim_C8_regenerate_preconditions ⟨"s", none⟩ "u1" "u2"
      SessionState.new).1 (Or.inl rfl) false (.ok Json.null) (fun _ => none) []
  · exact (claim_C8_regenerate_preconditions ⟨"s", none⟩ "u1" "u2"
      ⟨[Message.mk Role.user "q"], [Interaction.new "i" "q"], none⟩).2.1
      (Message.mk Role.user "q") rfl (by decide) (by decide) (by decide)
      false (.ok Json.null) (fun _ => none) []
  · exact (claim_C8_regenerate_preconditions ⟨"s", none⟩ "u1" "u2"
      ⟨[Message.mk Role.assistant "a"], [Interaction.new "i" "q"], none⟩).2.2
      (by decide) (by decide)
      (fun m hm => by
        simp only [List.getLast?_singleton, Option.some.injEq] at hm
        rw [← hm])
      rfl false (.ok Json.null) (fun _ => none) []

theorem regenerate_last_success (ctx : SessionCtx) (uuid1 uuid2 : String)
    (stream : Bool) (net : Except OramaError Json)
    (parse : String → Option Json) (events : List String)
    (s : SessionState) (m : Message) (p : AnswerConfig)
    (hm : s.messages.getLast? = some m) (hrole : m.role = Role.assistant)
    (hs : s.state.length ≠ 0) (hm0 : s.messages.length ≠ 0)
    (hp : s.last_interaction_params = some p) :
    regenerate_last ctx uuid1 uuid2 stream net parse events s =
      if stream then
        collect_stream parse events
          (answer_stream_start ctx uuid1 uuid2 p
            { s with messages := s.messages.dropLast, state := s.state.dropLast }) ""
      else
        answer ctx uuid1 uuid2 net p
          { s with messages := s.messages.dropLast, state := s.state.dropLast } := by
  simp [regenerate_last, hs, hm0, hm, hrole, hp]

/-- Claim C3: a successful `regenerate_last` pops exactly the most recent message
and the most recent interaction, replays the stored last request parameters
(re-enriched, as `answer` does on every call), and leaves `get_state()` with
the same number of interactions as before; the streaming replay also
preserves the interaction count, whatever the event feed delivers. -/
theorem claim_C3_regenerate_preserves_interaction_count (ctx : SessionCtx)
    (uuid1 uuid2 : String) (j : Json) (parse : String → Option Json)
    (events : List String) (s : SessionState) (m : Message) (p : AnswerConfig)
    (hm : s.messages.getLast? = some m) (hrole : m.role = Role.assistant)
    (hs : s.state.length ≠ 0) (hm0 : s.messages.length ≠ 0)
    (hp : s.last_interaction_params = some p) :
    (regenerate_last ctx uuid1 uuid2 false (.ok j) parse events s).1.state.length
      = s.state.length ∧
    (regenerate_last ctx uuid1 uuid2 false (.ok j) parse events s).1.messages
      = s.messages.dropLast
        ++ [Message.mk Role.user (enrich_config ctx uuid1 p).query,
            Message.mk Role.assistant (((j.get "answer").bind Json.asStr).getD "")] ∧
    (regenerate_last ctx uuid1 uuid2 false (.ok j) parse events s).1.state.dropLast
      = s.state.dropLast ∧
    (regenerate_last ctx uuid1 uuid2 false (.ok j) parse events s).1.last_interaction_params
      = some (enrich_config ctx uuid1 p) ∧
    (∀ net : Except OramaError Json,
      (regenerate_last ctx uuid1 uuid2 true net parse events s).1.state.length
        = s.state.length) := by
  have hdrop : s.state.dropLast.length + 1 = s.state.length := by
    have := List.length_dropLast s.state
    omega
  refine ⟨?_, ?_, ?_, ?_, ?_⟩
  · rw [regenerate_last_success ctx uuid1 uuid2 false (.ok j) parse events s m p
      hm hrole hs hm0 hp]
    simp [answer, answer_setup, answer_finish, updateLast_length, hdrop]
    omega
  · rw [regenerate_last_success ctx uuid1 uuid2 false (.ok j) parse events s m p
      hm hrole hs hm0 hp]
    simp [answer, answer_setup, answer_finish, updateLast_append_pair]
  · rw [regenerate_last_success ctx uuid1 uuid2 false (.ok j) parse events s m p
      hm hrole hs hm0 hp]
    simp [answer, answer_setup, answer_finish, updateLast_dropLast]
  · rw [regenerate_last_success ctx uuid1 uuid2 false (.ok j) parse events s m p
      hm hrole hs hm0 hp]
    simp [answer, answer_setup, answer_finish]
  · intro net
    rw [regenerate_last_success ctx uuid1 uuid2 true net parse events s m p
      hm hrole hs hm0 hp]
    have hc := (collect_stream_lengths parse events
      (answer_stream_start ctx uuid1 uuid2 p
        { s with messages := s.messages.dropLast, state := s.state.dropLast }) "").2
    simp only [if_pos]
    rw [hc]
    simp [answer_stream_start, answer_setup, hdrop]
    omega

/-- Witness for C3 at a one-turn session with a successful replay. -/
theorem claim_C3_regenerate_preserves_interaction_count_witness :
    (regenerate_last ⟨"s", none⟩ "u1" "u2" false
        (.ok (Json.obj [("answer", Json.str "b")])) (fun _ => none) []
        ⟨[Message.mk Role.user "q", Message.mk Role.assistant "a"],
         [Interaction.new "i" "q"], some (AnswerConfig.new "q")⟩).1.state.length
      = 1 := by
  have h := claim_C3_regenerate_preserves_interaction_count ⟨"s", none⟩ "u1" "u2"
    (Json.obj [("answer", Json.str "b")]) (fun _ => none) []
    ⟨[Message.mk Role.user "q", Message.mk Role.assistant "a"],
     [Interaction.new "i" "q"], some (AnswerConfig.new "q")⟩
    (Message.mk Role.assistant "a") (AnswerConfig.new "q")
    (by decide) rfl (by decide) (by decide) rfl
  exact h.1

/-- Concatenation of a list of strings in order. -/
def concat_all : List String → String
  | [] => ""
  | c :: rest => c ++ concat_all rest

theorem process_parsed_content_fold (ps : List Json) (cs : List String)
    (hpc : List.Forall₂
      (fun p c => (Json.get p "content").bind Json.asStr = some c) ps cs) :
    ∀ (msgs : List Message) (st : List Interaction)
      (m0 : Message) (i0 : Interaction),
      m0.role = Role.assistant →
      ∃ m1 i1,
        process_parsed_list ps (msgs ++ [m0]) (st ++ [i0])
          = (msgs ++ [m1], st ++ [i1]) ∧
        m1.role = Role.assistant ∧
        m1.content = m0.content ++ concat_all cs ∧
        i1.response = i0.response ++ concat_all cs := by
  induction hpc with
  | nil =>
    intro msgs st m0 i0 hrole
    exact ⟨m0, i0, rfl, hrole, by simp [concat_all], by simp [concat_all]⟩
  | @cons p c ps' cs' hc hrest ih =>
    intro msgs st m0 i0 hrole
    have hstep : process_parsed_list (p :: ps') (msgs ++ [m0]) (st ++ [i0]) =
        process_parsed_list ps' (msgs ++ [content_update_message c m0])
          (st ++ [content_update_interaction p c i0]) := by
      simp [process_parsed_list, process_content_eq p c "" _ _ hc,
        updateLast_append_singleton]
    obtain ⟨m1, i1, heq, hrole1, hcont, hresp⟩ :=
      ih msgs st (content_update_message c m0) (content_update_interaction p c i0)
        (by simp [content_update_message, hrole])
    refine ⟨m1, i1, hstep.trans heq, hrole1, ?_, ?_⟩
    · rw [hcont, content_update_message_assistant c m0 hrole]
      simp [concat_all, String.append_assoc]
    · rw [hresp, content_update_interaction_response]
      simp [concat_all, String.append_assoc]

/-- Claim C2: starting from the state a new turn leaves behind (the empty
assistant placeholder as last message, a fresh interaction with empty
response as last interaction), processing any sequence of decoded content
chunks in order makes the current Interaction's response and the current
assistant message's content both equal to the concatenation of the chunks. -/
theorem claim_C2_content_concatenation (ps : List Json) (cs : List String)
    (hpc : List.Forall₂
      (fun p c => (Json.get p "content").bind Json.asStr = some c) ps cs)
    (msgs : List Message) (st : List Interaction) (i0 : Interaction)
    (hresp : i0.response = "") :
    (process_parsed_list ps (msgs ++ [Message.mk Role.assistant ""])
        (st ++ [i0])).2.getLast?.map Interaction.response
      = some (concat_all cs) ∧
    (process_parsed_list ps (msgs ++ [Message.mk Role.assistant ""])
        (st ++ [i0])).1.getLast?.map Message.content
      = some (concat_all cs) := by
  obtain ⟨m1, i1, heq, _, hcont, hresp1⟩ :=
    process_parsed_content_fold ps cs hpc msgs st (Message.mk Role.assistant "")
      i0 rfl
  constructor
  · rw [heq]
    simp [List.getLast?_concat, hresp1, hresp]
  · rw [heq]
    simp [List.getLast?_concat, hcont]

/-- Witness for C2 at the two chunks of the ping/pong scenario. -/
theorem claim_C2_content_concatenation_witness :
    (process_parsed_list
        [Json.obj [("content", Json.str "pon")], Json.obj [("content", Json.str "g")]]
        ([] ++ [Message.mk Role.assistant ""])
        ([] ++ [Interaction.new "i" "ping"])).2.getLast?.map Interaction.response
      = some "pong" := by
  have h := claim_C2_content_concatenation
    [Json.obj [("content", Json.str "pon")], Json.obj [("content", Json.str "g")]]
    ["pon", "g"]
    (List.Forall₂.cons rfl (List.Forall₂.cons rfl List.Forall₂.nil))
    [] [] (Interaction.new "i" "ping") rfl
  have hc : concat_all ["pon", "g"] = "pong" := rfl
  rw [hc] at h
  exact h.1

/-- Chunk classification as the amended C5 states it, with the priority-order
key inspection requiring string values: a string `content` field yields
`Content`; else a string `step` field yields `StatusUpdate`; else a string
`error` field yields a stream-level error; anything else (including a parse
failure) yields `RawData` with the raw payload. Modelled from the amended
claim's words, to be compared against `process_stream_data`. -/
def decoder_spec_chunk (parsed : Option Json) (data : String) :
    Except OramaError StreamChunk :=
  match parsed with
  | none => .ok (.rawData data)
  | some p =>
    match (p.get "content").bind Json.asStr with
    | some c => .ok (.content c)
    | none =>
      match (p.get "step").bind Json.asStr with
      | some stp => .ok (.statusUpdate stp)
      | none =>
        match (p.get "error").bind Json.asStr with
        | some e => .error (.generic e)
        | none => .ok (.rawData data)

/-- Claim C5 counterexample: a payload whose `content` field is a number and whose
`step` field is a string. The claim as stated places it in the `RawData`
catch-all (its content case requires a string `content`, its step case
requires the absence of a `content` key), but the code emits
`StatusUpdate "s"`. -/
theorem claim_C5_counterexample :
    (process_stream_data
        (some (Json.obj [("content", Json.num 0), ("step", Json.str "s")]))
        "raw" [] []).2.2 = .ok (.statusUpdate "s") ∧
    (process_stream_data
        (some (Json.obj [("content", Json.num 0), ("step", Json.str "s")]))
        "raw" [] []).2.2 ≠ .ok (.rawData "raw") := by
  refine ⟨rfl, fun h => ?_⟩
  exact StreamChunk.noConfusion (Except.ok.inj h)

/-- Claim C5 (amended): the decoder inspects the parsed payload's top-level keys in
the priority order content, step, error, each check requiring a string
value: a string `content` yields `Content`; else a string `step` yields
`StatusUpdate` and updates `current_step`; else a string `error` marks the
current Interaction errored with the message and yields a stream-level
error; any other successfully parsed payload, and any payload that fails to
parse even after repair, yields `RawData` with the raw text — no event is
dropped silently. -/
theorem claim_C5_amended_decoder_priority (parsed : Option Json) (data : String)
    (msgs : List Message) (st : List Interaction) :
    (process_stream_data parsed data msgs st).2.2
      = decoder_spec_chunk parsed data ∧
    (∀ p stp, parsed = some p →
      (Json.get p "content").bind Json.asStr = none →
      (Json.get p "step").bind Json.asStr = some stp →
      (process_stream_data parsed data msgs st).2.1
        = updateLast (fun li => { li with current_step := some stp }) st) ∧
    (∀ p e, parsed = some p →
      (Json.get p "content").bind Json.asStr = none →
      (Json.get p "step").bind Json.asStr = none →
      (Json.get p "error").bind Json.asStr = some e →
      (process_stream_data parsed data msgs st).2.1
        = mark_interaction_error st e) := by
  refine ⟨?_, ?_, ?_⟩
  · rcases parsed with _ | p
    · rfl
    · rcases h1 : (Json.get p "content").bind Json.asStr with _ | c
      · rcases h2 : (Json.get p "step").bind Json.asStr with _ | stp
        · rcases h3 : (Json.get p "error").bind Json.asStr with _ | e <;>
            simp [process_stream_data, decoder_spec_chunk, h1, h2, h3]
        · simp [process_stream_data, decoder_spec_chunk, h1, h2]
      · simp [process_stream_data, decoder_spec_chunk, h1]
  · rintro p stp rfl h1 h2
    simp [process_stream_data, h1, h2]
  · rintro p e rfl h1 h2 h3
    simp [process_stream_data, h1, h2, h3]

/-- Witness for the amended C5: a pure-error payload marks the interaction
errored, and an unparseable payload is classified like the spec says. -/
theorem claim_C5_amended_decoder_priority_witness :
    (process_stream_data (some (Json.obj [("error", Json.str "boom")])) "d" []
        [Interaction.new "i" "q"]).2.1
      = mark_interaction_error [Interaction.new "i" "q"] "boom" ∧
    (process_stream_data none "d" [] []).2.2 = decoder_spec_chunk none "d" := by
  constructor
  · exact (claim_C5_amended_decoder_priority
      (some (Json.obj [("error", Json.str "boom")])) "d" []
      [Interaction.new "i" "q"]).2.2
      (Json.obj [("error", Json.str "boom")]) "boom" rfl rfl rfl rfl
  · exact (claim_C5_amended_decoder_priority none "d" [] []).1

/-- Claim C6: the literal `"[DONE]"` sentinel finalizes the current Interaction
(`loading=false`, `current_step="completed"`) and emits `Done`; and in the
ping/pong scenario — events `{"step":"starting"}`, `{"content":"pon"}`,
`{"content":"g"}`, `[DONE]` after an `answer_stream` turn start — the
resulting Interaction has `response="pong"`, `loading=false`,
`current_step="completed"`. -/
theorem claim_C6_done_sentinel_and_scenario
    (parse : String → Option Json) (ctx : SessionCtx) (uuid1 uuid2 : String)
    (h1 : parse "\x7b\"step\":\"starting\"\x7d"
      = some (Json.obj [("step", Json.str "starting")]))
    (h2 : parse "\x7b\"content\":\"pon\"\x7d"
      = some (Json.obj [("content", Json.str "pon")]))
    (h3 : parse "\x7b\"content\":\"g\"\x7d"
      = some (Json.obj [("content", Json.str "g")])) :
    (∀ (msgs : List Message) (st : List Interaction),
      handle_message_event parse "[DONE]" msgs st
        = (msgs,
           updateLast (fun i =>
             { i with loading := false, current_step := some "completed" }) st,
           .ok StreamChunk.done)) ∧
    (run_events parse
        ["\x7b\"step\":\"starting\"\x7d", "\x7b\"content\":\"pon\"\x7d",
         "\x7b\"content\":\"g\"\x7d", "[DONE]"]
        (answer_stream_start ctx uuid1 uuid2 (AnswerConfig.new "ping")
          SessionState.new).messages
        (answer_stream_start ctx uuid1 uuid2 (AnswerConfig.new "ping")
          SessionState.new).state).2.getLast?.map
        (fun i => (i.response, i.loading, i.current_step))
      = some ("pong", false, some "completed") := by
  have g1c : ((Json.obj [("step", Json.str "starting")]).get "content").bind
      Json.asStr = none := rfl
  have g1s : ((Json.obj [("step", Json.str "starting")]).get "step").bind
      Json.asStr = some "starting" := rfl
  have g2c : ((Json.obj [("content", Json.str "pon")]).get "content").bind
      Json.asStr = some "pon" := rfl
  have g2s : ((Json.obj [("content", Json.str "pon")]).get "step").bind
      Json.asStr = none := rfl
  have g2v : ((Json.obj [("content", Json.str "pon")]).get "verbose_step").bind
      Json.asStr = none := rfl
  have g3c : ((Json.obj [("content", Json.str "g")]).get "content").bind
      Json.asStr = some "g" := rfl
  have g3s : ((Json.obj [("content", Json.str "g")]).get "step").bind
      Json.asStr = none := rfl
  have g3v : ((Json.obj [("content", Json.str "g")]).get "verbose_step").bind
      Json.asStr = none := rfl
  constructor
  · intro msgs st
    simp [handle_message_event, finish_done]
  · have hmsg : (answer_stream_start ctx uuid1 uuid2 (AnswerConfig.new "ping")
        SessionState.new).messages
        = [Message.mk Role.user "ping", Message.mk Role.assistant ""] := by
      simp [answer_stream_start, answer_setup, enrich_config, AnswerConfig.new,
        SessionState.new]
    have hst : (answer_stream_start ctx uuid1 uuid2 (AnswerConfig.new "ping")
        SessionState.new).state = [Interaction.new uuid1 "ping"] := by
      simp [answer_stream_start, answer_setup, enrich_config, AnswerConfig.new,
        SessionState.new]
    rw [hmsg, hst]
    simp [run_events, handle_message_event, h1, h2, h3, process_stream_data,
      g1c, g1s, g2c, g2s, g2v, g3c, g3s, g3v, content_update_message,
      content_update_interaction, finish_done, updateLast, Interaction.new]

/-- Witness for C6 with a concrete parse function for the three payloads. -/
theorem claim_C6_done_sentinel_and_scenario_witness :
    (run_events
        (fun d =>
          if d = "\x7b\"step\":\"starting\"\x7d" then
            some (Json.obj [("step", Json.str "starting")])
          else if d = "\x7b\"content\":\"pon\"\x7d" then
            some (Json.obj [("content", Json.str "pon")])
          else if d = "\x7b\"content\":\"g\"\x7d" then
            some (Json.obj [("content", Json.str "g")])
          else none)
        ["\x7b\"step\":\"starting\"\x7d", "\x7b\"content\":\"pon\"\x7d",
         "\x7b\"content\":\"g\"\x7d", "[DONE]"]
        (answer_stream_start ⟨"sess", none⟩ "u1" "u2" (AnswerConfig.new "ping")
          SessionState.new).messages
        (answer_stream_start ⟨"sess", none⟩ "u1" "u2" (AnswerConfig.new "ping")
          SessionState.new).state).2.getLast?.map
        (fun i => (i.response, i.loading, i.current_step))
      = some ("pong", false, some "completed") :=
  (claim_C6_done_sentinel_and_scenario
    (fun d =>
      if d = "\x7b\"step\":\"starting\"\x7d" then
        some (Json.obj [("step", Json.str "starting")])
      else if d = "\x7b\"content\":\"pon\"\x7d" then
        some (Json.obj [("content", Json.str "pon")])
      else if d = "\x7b\"content\":\"g\"\x7d" then
        some (Json.obj [("content", Json.str "g")])
      else none)
    ⟨"sess", none⟩ "u1" "u2" rfl rfl rfl).2

/-- Claim C1 (code bug): one completed `answer` turn leaves the balanced state of
2 messages and 1 interaction, but a successful `regenerate_last` then leaves
3 messages and still 1 interaction — the message count is odd and no longer
twice the interaction count, because the replay pops only the assistant
message yet re-appends a full user+assistant pair. -/
theorem claim_C1_regenerate_breaks_pairing :
    (answer ⟨"sess", none⟩ "u1" "u2" (.ok (Json.obj [("answer", Json.str "hi")]))
        (AnswerConfig.new "ping") SessionState.new).1.messages.length = 2 ∧
    (answer ⟨"sess", none⟩ "u1" "u2" (.ok (Json.obj [("answer", Json.str "hi")]))
        (AnswerConfig.new "ping") SessionState.new).1.state.length = 1 ∧
    (regenerate_last ⟨"sess", none⟩ "u3" "u4" false
        (.ok (Json.obj [("answer", Json.str "ho")])) (fun _ => none) []
        (answer ⟨"sess", none⟩ "u1" "u2"
          (.ok (Json.obj [("answer", Json.str "hi")]))
          (AnswerConfig.new "ping") SessionState.new).1).1.messages.length = 3 ∧
    (regenerate_last ⟨"sess", none⟩ "u3" "u4" false
        (.ok (Json.obj [("answer", Json.str "ho")])) (fun _ => none) []
        (answer ⟨"sess", none⟩ "u1" "u2"
          (.ok (Json.obj [("answer", Json.str "hi")]))
          (AnswerConfig.new "ping") SessionState.new).1).1.state.length = 1 ∧
    ¬((regenerate_last ⟨"sess", none⟩ "u3" "u4" false
        (.ok (Json.obj [("answer", Json.str "ho")])) (fun _ => none) []
        (answer ⟨"sess", none⟩ "u1" "u2"
          (.ok (Json.obj [("answer", Json.str "hi")]))
          (AnswerConfig.new "ping") SessionState.new).1).1.messages.length
      = 2 * (regenerate_last ⟨"sess", none⟩ "u3" "u4" false
        (.ok (Json.obj [("answer", Json.str "ho")])) (fun _ => none) []
        (answer ⟨"sess", none⟩ "u1" "u2"
          (.ok (Json.obj [("answer", Json.str "hi")]))
          (AnswerConfig.new "ping") SessionState.new).1).1.state.length) := by
  refine ⟨rfl, rfl, ?_, ?_, ?_⟩ <;> first
    | rfl
    | (intro h
       rw [show (regenerate_last ⟨"sess", none⟩ "u3" "u4" false
            (.ok (Json.obj [("answer", Json.str "ho")])) (fun _ => none) []
            (answer ⟨"sess", none⟩ "u1" "u2"
              (.ok (Json.obj [("answer", Json.str "hi")]))
              (AnswerConfig.new "ping") SessionState.new).1).1.messages.length
          = 3 from rfl,
         show (regenerate_last ⟨"sess", none⟩ "u3" "u4" false
            (.ok (Json.obj [("answer", Json.str "ho")])) (fun _ => none) []
            (answer ⟨"sess", none⟩ "u1" "u2"
              (.ok (Json.obj [("answer", Json.str "hi")]))
              (AnswerConfig.new "ping") SessionState.new).1).1.state.length
          = 1 from rfl] at h
       exact absurd h (by decide))

end Orama
